import Mathlib

/-!
Verification of the tool-execution pipeline of the playwright-mcp repository.

The development shallowly embeds `src/server.ts` (dispatcher and modal-state
gate) and `src/tools/snapshot.ts` (tool handlers and the stale-reference
resolver `handleStaleRef`).  Parts of the repository that the tools call but
whose source is not available (`context.ts`: `Tab.captureSnapshot`,
`Snapshot.refLocator`, `Context.run`, `Context.modalStatesMarkdown`,
`generateLocator`; `javascript.ts`: `quote`, `formatObject`) are modelled from
the specification and carry a `Modelled from the spec:` doc comment.

Strings are modelled as `List Char`; the JavaScript regular expressions
`/s(\d+)e/` and `new RegExp("ref=(s<k>e\\d+)")` are embedded as explicit
leftmost-match scanners (`matchSGE`, `searchRefInText`).
-/

/-- Decimal digit character for a value below ten. -/
def digitChar : Nat → Char
  | 0 => '0'
  | 1 => '1'
  | 2 => '2'
  | 3 => '3'
  | 4 => '4'
  | 5 => '5'
  | 6 => '6'
  | 7 => '7'
  | 8 => '8'
  | 9 => '9'
  | _ => '0'

/-- Fuel-indexed decimal rendering of a natural number (most significant digit
first), mirroring JavaScript number-to-string conversion for naturals. -/
def natToDigitsAux : Nat → Nat → List Char
  | 0, _ => []
  | fuel + 1, n =>
    if n < 10 then [digitChar n]
    else natToDigitsAux fuel (n / 10) ++ [digitChar (n % 10)]

/-- Decimal rendering of a natural number, as produced by the JavaScript
template literal `s${g}e`. -/
def natToDigits (n : Nat) : List Char := natToDigitsAux (n + 1) n

/-- Numeric value of a digit string, as computed by JavaScript `parseInt`. -/
def parseDigits (l : List Char) : Nat :=
  l.foldl (fun acc c => 10 * acc + (c.toNat - 48)) 0

/-- The reference string `s<generation>e<localIndex>` (spec section 6). -/
def refStr (g i : Nat) : List Char :=
  's' :: (natToDigits g ++ ('e' :: natToDigits i))

/-- The generation prefix `s<g>e` used both in the `startsWith` test and as
the expected prefix of `handleStaleRef`. -/
def sPre (g : Nat) : List Char := 's' :: (natToDigits g ++ ['e'])

/-- One step of the embedded regex `/s(\d+)e/`: try to match at the head of
the list, returning the captured digit group. -/
def matchSGEAt : List Char → Option (List Char)
  | 's' :: rest =>
    let ds := rest.takeWhile Char.isDigit
    if ds.isEmpty then none
    else
      match rest.drop ds.length with
      | 'e' :: _ => some ds
      | _ => none
  | _ => none

/-- Embedded JavaScript `ref.match(/s(\d+)e/)?.[1]`: leftmost match of
`s<digits>e`, returning the captured digit group. -/
def matchSGE : List Char → Option (List Char)
  | [] => none
  | c :: rest =>
    match matchSGEAt (c :: rest) with
    | some ds => some ds
    | none => matchSGE rest

/-- The literal characters of `ref=`, the text anchor of the stale-repair
search regex. -/
def refEq : List Char := ['r', 'e', 'f', '=']

/-- One step of the embedded regex `new RegExp("ref=(<pref>\\d+)")`: try to
match at the head of the list. The captured group is the prefix followed by
the maximal run of digits. -/
def tryMatchAt (pref l : List Char) : Option (List Char) :=
  let pat := refEq ++ pref
  if pat.isPrefixOf l then
    let ds := (l.drop pat.length).takeWhile Char.isDigit
    if ds.isEmpty then none else some (pref ++ ds)
  else none

/-- Embedded JavaScript `text.match(new RegExp("ref=(<pref>\\d+)"))?.[1]`:
leftmost match, returning the captured group. -/
def searchRefInText : List Char → List Char → Option (List Char)
  | [], _ => none
  | c :: rest, pref =>
    match tryMatchAt pref (c :: rest) with
    | some r => some r
    | none => searchRefInText rest pref

/-- A modal state: a type tag and a human-readable description
(spec section 3, Modal State). -/
structure ModalState where
  type : String
  description : String
  deriving DecidableEq, Repr

/-- The live browser page: its interactive nodes (labels, in tree order) and
the generation counter of the last structural capture
(spec sections 3 and 4.1). -/
structure Page where
  gen : Nat
  nodes : List String
  deriving DecidableEq, Repr

/-- An immutable structural capture of the page (spec section 3, Snapshot). -/
structure Snapshot where
  gen : Nat
  nodes : List String
  deriving DecidableEq, Repr

/-- Observable side effects of the pipeline.  `capture` records a snapshot
capture; all other constructors record the browser interaction performed by a
tool's deferred action. -/
inductive Effect where
  | capture (gen : Nat)
  | clickOn (node : String)
  | dragBetween (src tgt : String)
  | hoverOn (node : String)
  | fillIn (node text : String)
  | pressSeqIn (node text : String)
  | pressKey (node key : String)
  | checkOn (node : String)
  | selectIn (node : String) (values : List String)
  | shot
  deriving DecidableEq, Repr

/-- Effects a tool handler may legitimately perform during planning: snapshot
captures only. -/
def isCaptureFx : Effect → Bool
  | Effect.capture _ => true
  | _ => false

/-- The session state threaded through the pipeline: the page, the Tab's
current snapshot (absent before the first capture), the active modal states,
and the log of performed effects. -/
structure SessionState where
  page : Page
  tabSnapshot : Option Snapshot
  modal : List ModalState
  log : List Effect
  deriving DecidableEq, Repr

/-- One item of a response's `content` array (spec section 6). -/
inductive ContentItem where
  | text (s : String)
  | image (data mime : String)
  deriving DecidableEq, Repr

/-- A protocol response (spec section 6). -/
structure Response where
  content : List ContentItem
  isError : Bool
  deriving DecidableEq, Repr

/-- JSON-like argument values handed to a tool call, validated by the zod
schemas embedded below. -/
inductive JVal where
  | str (s : String)
  | bool (b : Bool)
  | arr (l : List JVal)
  | obj (fields : List (String × JVal))
  | null

/-- Field lookup on an object value. -/
def JVal.lookupField : JVal → String → Option JVal
  | JVal.obj fields, k => (fields.find? (fun p => p.1 == k)).map (fun p => p.2)
  | _, _ => none

/-- String coercion used by the schema embeddings. -/
def JVal.asStr : JVal → Option String
  | JVal.str s => some s
  | _ => none

/-- Boolean coercion used by the schema embeddings. -/
def JVal.asBool : JVal → Option Bool
  | JVal.bool b => some b
  | _ => none

/-- String-array coercion used by the `selectOption` schema embedding. -/
def JVal.asStrList : JVal → Option (List String)
  | JVal.arr l => l.foldr (fun v acc =>
      match v.asStr, acc with
      | some s, some r => some (s :: r)
      | _, _ => none) (some [])
  | _ => none

/-- The value a tool handler returns before execution
(spec section 3, Pending Action): trace lines, an optional deferred
operation, and the two post-condition flags. -/
structure PendingAction where
  code : List String
  action : Option (SessionState → Except String (List ContentItem) × SessionState)
  captureSnapshot : Bool
  waitForNetwork : Bool

/-- A registered tool (the `Tool` interface of `src/tools/tool.ts`): schema
name, capability tag, the optional modal-clearing declaration, and the
handler. -/
structure Tool where
  name : String
  capability : String
  clearsModalState : Option String
  handle : SessionState → JVal → Except String PendingAction × SessionState

/-- An incoming tool-call request (spec section 6, Inbound call). -/
structure Request where
  name : String
  args : JVal

/-- One serialized line of the snapshot text, embedding the node's reference
inline as `ref=s<gen>e<index>` followed by a newline (spec section 4.1:
"The serialized text form embeds each node's reference inline"). -/
def entryOf (g i : Nat) : List Char := refEq ++ refStr g i ++ ['\n']

/-- Modelled from the spec: `Snapshot.text()` (in `src/context.ts`, which is
not under `src/`).  Spec section 4.1: each interactive node is assigned
reference `s<generation>e<index>` with `index` a monotonically increasing
counter in tree order, and the serialized text embeds each reference
inline. -/
def Snapshot.text (snap : Snapshot) : List Char :=
  ((List.range snap.nodes.length).map (fun i => entryOf snap.gen i)).flatten

/-- Modelled from the spec: `Tab.captureSnapshot()` (in `src/context.ts`,
which is not under `src/`).  Spec section 4.1: capture produces a new
Snapshot whose generation is the previous generation plus one (end-to-end
scenario 5: a recapture while the current generation is 3 yields
generation 4), with every interactive node re-assigned a fresh reference.
Returns the captured snapshot; the generation counter lives on the page so
that every Tab wrapping the same page continues the same sequence. -/
def captureForPage (st : SessionState) : Snapshot × SessionState :=
  let g := st.page.gen + 1
  let snap : Snapshot := { gen := g, nodes := st.page.nodes }
  (snap,
    { st with
      page := { st.page with gen := g },
      log := st.log ++ [Effect.capture g] })

/-- Modelled from the spec: a capture performed through the session's own Tab
additionally installs the new snapshot as the Tab's current one (spec
section 3, Tab invariant: capturing atomically replaces the Tab's
snapshot). -/
def tabCapture (st : SessionState) : SessionState :=
  let cap := captureForPage st
  { cap.2 with tabSnapshot := some cap.1 }

/-- Modelled from the spec: `Tab.snapshotOrDie()` (in `src/context.ts`, which
is not under `src/`).  Spec section 3, Tab lifecycle: a tool call requiring a
snapshot fails fast with a specific error when none exists yet. -/
def snapshotOrDie (st : SessionState) : Except String Snapshot :=
  match st.tabSnapshot with
  | some snap => Except.ok snap
  | none => Except.error "PreconditionError: no snapshot available"

/-- Modelled from the spec: `Snapshot.refLocator(ref)` (in `src/context.ts`,
which is not under `src/`).  Spec section 4.1, Resolve: return the target
bound to the exact reference, failing with `StaleOrUnknownReferenceError`
when no node carries it (never silently returning a wrong element). -/
def refLocator (snap : Snapshot) (ref : List Char) : Except String String :=
  match (List.range snap.nodes.length).find? (fun i => refStr snap.gen i == ref) with
  | some i =>
    match snap.nodes.get? i with
    | some node => Except.ok node
    | none => Except.error ("StaleOrUnknownReferenceError: " ++ String.mk ref)
  | none => Except.error ("StaleOrUnknownReferenceError: " ++ String.mk ref)

/-- Modelled from the spec: `generateLocator` (in `src/context.ts`, which is
not under `src/`): renders a locator expression for the human-readable trace
line of a Pending Action. -/
def generateLocator (node : String) : String := "getByRef(\x27" ++ node ++ "\x27)"

/-- Modelled from the spec: `javascript.quote` (in `src/javascript.ts`, which
is not under `src/`): a single-quoted string literal for trace lines. -/
def jsQuote (s : String) : String := "\x27" ++ s ++ "\x27"

/-- Modelled from the spec: `javascript.formatObject` on an array of strings
(in `src/javascript.ts`, which is not under `src/`). -/
def formatValues (values : List String) : String :=
  "[" ++ String.intercalate ", " (values.map jsQuote) ++ "]"

/-- Modelled from the spec: `Context.modalStatesMarkdown()` (in
`src/context.ts`, which is not under `src/`).  Spec sections 4.2 and 7: the
active modal states are enumerated in a caller-displayable form, one line per
state, using each state's type and description. -/
def modalStatesMarkdown (st : SessionState) : List String :=
  st.modal.map (fun m => "- [" ++ m.type ++ "] " ++ m.description)

/-- Embedding of `handleStaleRef` from `src/tools/snapshot.ts` (lines 54-68).
A fresh Tab over the same page captures a snapshot unconditionally; the
reference's generation `g` is read with `/s(\d+)e/` (defaulting to 0); if the
reference starts with `s<g>e`, the new snapshot text is searched with
`ref=(s<g+1>e\d+)` and the first captured group replaces the reference,
falling back to the original. The temporary Tab's snapshot is local, so the
session Tab's current snapshot is left untouched. -/
def handleStaleRef (st : SessionState) (ref : List Char) : List Char × SessionState :=
  let cap := captureForPage st
  let snap := cap.1
  let st1 := cap.2
  let g := parseDigits ((matchSGE ref).getD ['0'])
  let wantPref := sPre (g + 1)
  if (sPre g).isPrefixOf ref then
    match searchRefInText (Snapshot.text snap) wantPref with
    | some newRef => (newRef, st1)
    | none => (ref, st1)
  else (ref, st1)

/-- Embedding of `elementSchema.parse` (zod object with required string
fields `element` and `ref`; extra fields are stripped, a missing or
non-string field throws). -/
def elementSchemaParse (j : JVal) : Except String (String × String) :=
  match (j.lookupField "element").bind JVal.asStr, (j.lookupField "ref").bind JVal.asStr with
  | some el, some rf => Except.ok (el, rf)
  | _, _ => Except.error "ZodError: element and ref must be strings"

/-- Embedding of `dragSchema.parse` (required string fields `startElement`,
`startRef`, `endElement`, `endRef`). -/
def dragSchemaParse (j : JVal) : Except String (String × String × String × String) :=
  match (j.lookupField "startElement").bind JVal.asStr,
        (j.lookupField "startRef").bind JVal.asStr,
        (j.lookupField "endElement").bind JVal.asStr,
        (j.lookupField "endRef").bind JVal.asStr with
  | some a, some b, some c, some d => Except.ok (a, b, c, d)
  | _, _, _, _ => Except.error "ZodError: startElement, startRef, endElement and endRef must be strings"

/-- Optional boolean field: absent means `false` at the use sites (JavaScript
truthiness of `undefined`), present non-boolean throws. -/
def optBoolField (j : JVal) (k : String) : Except String Bool :=
  match j.lookupField k with
  | none => Except.ok false
  | some v =>
    match v.asBool with
    | some b => Except.ok b
    | none => Except.error ("ZodError: " ++ k ++ " must be a boolean")

/-- Optional string field: present non-string throws. -/
def optStrField (j : JVal) (k : String) : Except String (Option String) :=
  match j.lookupField k with
  | none => Except.ok none
  | some v =>
    match v.asStr with
    | some s => Except.ok (some s)
    | none => Except.error ("ZodError: " ++ k ++ " must be a string")

/-- Embedding of `typeSchema.parse` (`elementSchema` extended with required
`text` and optional booleans `submit` and `slowly`). -/
def typeSchemaParse (j : JVal) : Except String (String × String × String × Bool × Bool) :=
  match elementSchemaParse j with
  | Except.error e => Except.error e
  | Except.ok (el, rf) =>
    match (j.lookupField "text").bind JVal.asStr with
    | none => Except.error "ZodError: text must be a string"
    | some tx =>
      match optBoolField j "submit" with
      | Except.error e => Except.error e
      | Except.ok sub =>
        match optBoolField j "slowly" with
        | Except.error e => Except.error e
        | Except.ok slo => Except.ok (el, rf, tx, sub, slo)

/-- Embedding of `selectOptionSchema.parse` (`elementSchema` extended with a
required string array `values`). -/
def selectOptionSchemaParse (j : JVal) : Except String (String × String × List String) :=
  match elementSchemaParse j with
  | Except.error e => Except.error e
  | Except.ok (el, rf) =>
    match (j.lookupField "values").bind JVal.asStrList with
    | none => Except.error "ZodError: values must be an array of strings"
    | some vs => Except.ok (el, rf, vs)

/-- Embedding of `selectRadioSchema.parse` (`elementSchema` extended with a
required string `value`). -/
def selectRadioSchemaParse (j : JVal) : Except String (String × String × String) :=
  match elementSchemaParse j with
  | Except.error e => Except.error e
  | Except.ok (el, rf) =>
    match (j.lookupField "value").bind JVal.asStr with
    | none => Except.error "ZodError: value must be a string"
    | some v => Except.ok (el, rf, v)

/-- Embedding of `screenshotSchema.parse` (optional `raw`, `element`, `ref`,
refined so that `element` and `ref` are provided together or not at all). -/
def screenshotSchemaParse (j : JVal) : Except String (Bool × Option String × Option String) :=
  match optBoolField j "raw" with
  | Except.error e => Except.error e
  | Except.ok raw =>
    match optStrField j "element" with
    | Except.error e => Except.error e
    | Except.ok el =>
      match optStrField j "ref" with
      | Except.error e => Except.error e
      | Except.ok rf =>
        if el.isSome == rf.isSome then Except.ok (raw, el, rf)
        else Except.error "ZodError: Both element and ref must be provided or neither."

/-- Embedding of the `snapshot` tool of `src/tools/snapshot.ts` (lines
30-47).  `context.ensureTab()` is modelled as a no-op because the model's
session always carries a page. -/
def snapshot : Tool :=
  { name := "browser_snapshot",
    capability := "core",
    clearsModalState := none,
    handle := fun st _params =>
      (Except.ok
        { code := ["// <internal code to capture accessibility snapshot>"],
          action := none,
          captureSnapshot := true,
          waitForNetwork := false }, st) }

/-- Embedding of the `click` tool of `src/tools/snapshot.ts` (lines 70-96):
validate the parameters, run the supplied reference through `handleStaleRef`,
resolve the (possibly substituted) reference against the Tab's current
snapshot, and return the trace plus the deferred click. -/
def click : Tool :=
  { name := "browser_click",
    capability := "core",
    clearsModalState := none,
    handle := fun st params =>
      match elementSchemaParse params with
      | Except.error e => (Except.error e, st)
      | Except.ok (element, rf) =>
        let r := handleStaleRef st rf.data
        let ref := r.1
        let st1 := r.2
        match snapshotOrDie st1 with
        | Except.error e => (Except.error e, st1)
        | Except.ok snap =>
          match refLocator snap ref with
          | Except.error e => (Except.error e, st1)
          | Except.ok node =>
            (Except.ok
              { code := ["// Click " ++ element,
                         "await page." ++ generateLocator node ++ ".click();"],
                action := some (fun s =>
                  (Except.ok [], { s with log := s.log ++ [Effect.clickOn node] })),
                captureSnapshot := true,
                waitForNetwork := true }, st1) }

/-- Embedding of the `drag` tool of `src/tools/snapshot.ts` (lines 105-131):
both references are resolved directly against the current snapshot. -/
def drag : Tool :=
  { name := "browser_drag",
    capability := "core",
    clearsModalState := none,
    handle := fun st params =>
      match dragSchemaParse params with
      | Except.error e => (Except.error e, st)
      | Except.ok (startElement, startRef, endElement, endRef) =>
        match snapshotOrDie st with
        | Except.error e => (Except.error e, st)
        | Except.ok snap =>
          match refLocator snap startRef.data with
          | Except.error e => (Except.error e, st)
          | Except.ok startNode =>
            match refLocator snap endRef.data with
            | Except.error e => (Except.error e, st)
            | Except.ok endNode =>
              (Except.ok
                { code := ["// Drag " ++ startElement ++ " to " ++ endElement,
                           "await page." ++ generateLocator startNode ++ ".dragTo(page."
                             ++ generateLocator endNode ++ ");"],
                  action := some (fun s =>
                    (Except.ok [],
                     { s with log := s.log ++ [Effect.dragBetween startNode endNode] })),
                  captureSnapshot := true,
                  waitForNetwork := true }, st) }

/-- Embedding of the `hover` tool of `src/tools/snapshot.ts` (lines 133-158):
the reference is resolved directly against the current snapshot. -/
def hover : Tool :=
  { name := "browser_hover",
    capability := "core",
    clearsModalState := none,
    handle := fun st params =>
      match elementSchemaParse params with
      | Except.error e => (Except.error e, st)
      | Except.ok (element, rf) =>
        match snapshotOrDie st with
        | Except.error e => (Except.error e, st)
        | Except.ok snap =>
          match refLocator snap rf.data with
          | Except.error e => (Except.error e, st)
          | Except.ok node =>
            (Except.ok
              { code := ["// Hover over " ++ element,
                         "await page." ++ generateLocator node ++ ".hover();"],
                action := some (fun s =>
                  (Except.ok [], { s with log := s.log ++ [Effect.hoverOn node] })),
                captureSnapshot := true,
                waitForNetwork := true }, st) }

/-- Embedding of the `type` tool of `src/tools/snapshot.ts` (lines 166-205);
the source constant is named `type`, rendered here as `typeTool`.  The trace
lines and the step list are both assembled during planning; the deferred
action runs the steps sequentially. -/
def typeTool : Tool :=
  { name := "browser_type",
    capability := "core",
    clearsModalState := none,
    handle := fun st params =>
      match typeSchemaParse params with
      | Except.error e => (Except.error e, st)
      | Except.ok (element, rf, text, submit, slowly) =>
        match snapshotOrDie st with
        | Except.error e => (Except.error e, st)
        | Except.ok snap =>
          match refLocator snap rf.data with
          | Except.error e => (Except.error e, st)
          | Except.ok node =>
            let typeCode :=
              if slowly then
                ["// Press \"" ++ text ++ "\" sequentially into \"" ++ element ++ "\"",
                 "await page." ++ generateLocator node ++ ".pressSequentially("
                   ++ jsQuote text ++ ");"]
              else
                ["// Fill \"" ++ text ++ "\" into \"" ++ element ++ "\"",
                 "await page." ++ generateLocator node ++ ".fill(" ++ jsQuote text ++ ");"]
            let typeSteps : List Effect :=
              if slowly then [Effect.pressSeqIn node text] else [Effect.fillIn node text]
            let submitCode :=
              if submit then
                ["// Submit text",
                 "await page." ++ generateLocator node ++ ".press(\x27Enter\x27);"]
              else []
            let submitSteps : List Effect :=
              if submit then [Effect.pressKey node "Enter"] else []
            (Except.ok
              { code := typeCode ++ submitCode,
                action := some (fun s =>
                  (Except.ok [], { s with log := s.log ++ typeSteps ++ submitSteps })),
                captureSnapshot := true,
                waitForNetwork := true }, st) }

/-- Embedding of the `selectOption` tool of `src/tools/snapshot.ts` (lines
211-236): the reference is resolved directly against the current snapshot. -/
def selectOption : Tool :=
  { name := "browser_select_option",
    capability := "core",
    clearsModalState := none,
    handle := fun st params =>
      match selectOptionSchemaParse params with
      | Except.error e => (Except.error e, st)
      | Except.ok (element, rf, values) =>
        match snapshotOrDie st with
        | Except.error e => (Except.error e, st)
        | Except.ok snap =>
          match refLocator snap rf.data with
          | Except.error e => (Except.error e, st)
          | Except.ok node =>
            (Except.ok
              { code := ["// Select options [" ++ String.intercalate ", " values ++ "] in " ++ element,
                         "await page." ++ generateLocator node ++ ".selectOption("
                           ++ formatValues values ++ ");"],
                action := some (fun s =>
                  (Except.ok [], { s with log := s.log ++ [Effect.selectIn node values] })),
                captureSnapshot := true,
                waitForNetwork := true }, st) }

/-- Embedding of the `selectRadio` tool of `src/tools/snapshot.ts` (lines
242-267): the reference is resolved directly against the current snapshot. -/
def selectRadio : Tool :=
  { name := "browser_select_radio",
    capability := "core",
    clearsModalState := none,
    handle := fun st params =>
      match selectRadioSchemaParse params with
      | Except.error e => (Except.error e, st)
      | Except.ok (element, rf, value) =>
        match snapshotOrDie st with
        | Except.error e => (Except.error e, st)
        | Except.ok snap =>
          match refLocator snap rf.data with
          | Except.error e => (Except.error e, st)
          | Except.ok node =>
            (Except.ok
              { code := ["// Select radio button \"" ++ element ++ "\" with value \""
                           ++ value ++ "\"",
                         "await page." ++ generateLocator node ++ ".check();"],
                action := some (fun s =>
                  (Except.ok [], { s with log := s.log ++ [Effect.checkOn node] })),
                captureSnapshot := true,
                waitForNetwork := true }, st) }

/-- Embedding of the `screenshot` tool of `src/tools/snapshot.ts` (lines
280-326).  The temporary-directory path and timestamp of the file name are
outside the model; the file name keeps only its extension.  The deferred
action produces the image payload; its byte content is outside the model. -/
def screenshot : Tool :=
  { name := "browser_take_screenshot",
    capability := "core",
    clearsModalState := none,
    handle := fun st params =>
      match screenshotSchemaParse params with
      | Except.error e => (Except.error e, st)
      | Except.ok (raw, element, rf) =>
        match snapshotOrDie st with
        | Except.error e => (Except.error e, st)
        | Except.ok snap =>
          let fileType := if raw then "png" else "jpeg"
          let fileName := "page." ++ fileType
          let isElementShot := element.isSome && rf.isSome
          let locatorRes : Except String (Option String) :=
            match rf with
            | some r =>
              match refLocator snap r.data with
              | Except.error e => Except.error e
              | Except.ok node => Except.ok (some node)
            | none => Except.ok none
          match locatorRes with
          | Except.error e => (Except.error e, st)
          | Except.ok locator =>
            let header := "// Screenshot "
              ++ (if isElementShot then element.getD "" else "viewport")
              ++ " and save it as " ++ fileName
            let shotLine :=
              match locator with
              | some node => "await page." ++ generateLocator node ++ ".screenshot();"
              | none => "await page.screenshot();"
            (Except.ok
              { code := [header, shotLine],
                action := some (fun s =>
                  (Except.ok [ContentItem.image "imagedata"
                      (if raw then "image/png" else "image/jpeg")],
                   { s with log := s.log ++ [Effect.shot] })),
                captureSnapshot := true,
                waitForNetwork := false }, st) }

/-- The default export of `src/tools/snapshot.ts` (lines 329-338): the tool
registry in source order. -/
def toolsList : List Tool :=
  [snapshot, click, drag, hover, typeTool, selectOption, selectRadio, screenshot]

/-- Response assembly after a Pending Action has run (spec section 4.4,
steps 6-8): optionally wait for network quiescence (a bounded wait with no
modelled state change), optionally recapture the Tab's snapshot, and return
the trace lines, the action's payload and, when a recapture occurred, the
fresh snapshot text. -/
def finishRun (pa : PendingAction) (payload : List ContentItem) (st : SessionState) :
    Except String Response × SessionState :=
  let st2 := if pa.captureSnapshot then tabCapture st else st
  let extra : List ContentItem :=
    if pa.captureSnapshot then
      match st2.tabSnapshot with
      | some snap => [ContentItem.text (String.mk (Snapshot.text snap))]
      | none => []
    else []
  (Except.ok
    { content := pa.code.map ContentItem.text ++ payload ++ extra,
      isError := false }, st2)

/-- Modelled from the spec: `Context.run` (in `src/context.ts`, which is not
under `src/`).  Spec section 4.4, steps 4-8: invoke the handler to obtain a
Pending Action, execute its deferred operation, then apply the
post-conditions and assemble the response.  A throw from the handler
(including schema validation) or from the deferred operation is surfaced as
an `Except.error`, which `handleToolExecution` catches. -/
def runTool (tool : Tool) (st : SessionState) (args : JVal) :
    Except String Response × SessionState :=
  match tool.handle st args with
  | (Except.error e, st1) => (Except.error e, st1)
  | (Except.ok pa, st1) =>
    match pa.action with
    | none => finishRun pa [] st1
    | some act =>
      match act st1 with
      | (Except.error e, st2) => (Except.error e, st2)
      | (Except.ok payload, st2) => finishRun pa payload st2

/-- Embedding of `createErrorResponse` from `src/server.ts` (lines 96-101). -/
def createErrorResponse (text : String) : Response :=
  { content := [ContentItem.text text], isError := true }

/-- The boolean rejection condition of the modal-state gate, verbatim from
`src/server.ts` lines 106-107:
`(tool.clearsModalState && !modalStates.includes(tool.clearsModalState)) ||
(!tool.clearsModalState && modalStates.length)`. -/
def gateRejects (clears : Option String) (modalTypes : List String) : Bool :=
  (match clears with
   | some t => !(modalTypes.contains t)
   | none => false)
  || (clears.isNone && !(modalTypes.isEmpty))

/-- Embedding of `handleToolExecution` from `src/server.ts` (lines 103-120):
evaluate the modal-state gate against the active modal-state types; on
rejection return a structured error response naming the tool and listing the
active modal states; otherwise run the tool, converting any thrown error into
an error response. -/
def handleToolExecution (tool : Tool) (st : SessionState) (req : Request) :
    Response × SessionState :=
  let modalTypes := st.modal.map ModalState.type
  if gateRejects tool.clearsModalState modalTypes then
    let text := String.intercalate "\n"
      (("Tool \"" ++ req.name ++ "\" does not handle the modal state.")
        :: modalStatesMarkdown st)
    (createErrorResponse text, st)
  else
    match runTool tool st req.args with
    | (Except.ok r, st1) => (r, st1)
    | (Except.error e, st1) => (createErrorResponse e, st1)

/-- Embedding of the `CallToolRequestSchema` handler installed by
`setupRequestHandlers` in `src/server.ts` (lines 81-88): look the tool up by
exact schema name, answering `Tool "<name>" not found` when absent, and
otherwise delegate to `handleToolExecution`. -/
def callToolHandler (toolList : List Tool) (st : SessionState) (req : Request) :
    Response × SessionState :=
  match toolList.find? (fun t => t.name == req.name) with
  | none => (createErrorResponse ("Tool \"" ++ req.name ++ "\" not found"), st)
  | some tool => handleToolExecution tool st req

/-- Fixture for the C1 witness: the active modal set holds only "dialog". -/
def stC1 : SessionState :=
  { page := { gen := 0, nodes := [] }, tabSnapshot := none,
    modal := [{ type := "dialog", description := "confirm dialog" }], log := [] }

/-- Fixture for the C2 witness: spec end-to-end scenario 5, a page at
generation 3. -/
def stC2 : SessionState :=
  { page := { gen := 3, nodes := ["a"] }, tabSnapshot := none, modal := [], log := [] }

/-- Fixture for C3: thirteen interactive node labels. -/
def nodes13 : List String := (List.range 13).map (fun i => "n" ++ Nat.repr i)

/-- Fixture for C3: a page at generation 3 with 13 interactive nodes and the
Tab's current snapshot also at generation 3. -/
def stC3 : SessionState :=
  { page := { gen := 3, nodes := nodes13 },
    tabSnapshot := some { gen := 3, nodes := nodes13 },
    modal := [], log := [] }

/-- Fixture for C4: a page and snapshot at generation 3 with one node. -/
def stC4 : SessionState :=
  { page := { gen := 3, nodes := ["a"] },
    tabSnapshot := some { gen := 3, nodes := ["a"] },
    modal := [], log := [] }

/-- Fixture for C4: hover arguments carrying the stale reference `s2e0`. -/
def argsC4 : JVal := JVal.obj [("element", JVal.str "x"), ("ref", JVal.str "s2e0")]

/-- Fixture for the C5 witness: a page at generation 3 with one node. -/
def stC5 : SessionState :=
  { page := { gen := 3, nodes := ["a"] }, tabSnapshot := none, modal := [], log := [] }

/-- Fixture for the C6 witness: an idle session. -/
def stC6 : SessionState :=
  { page := { gen := 0, nodes := [] }, tabSnapshot := none, modal := [], log := [] }

/-- Fixture for the C7 witness: spec end-to-end scenario 2, the active modal
set holds "dialog". -/
def stC7 : SessionState :=
  { page := { gen := 0, nodes := [] }, tabSnapshot := none,
    modal := [{ type := "dialog", description := "alert dialog" }], log := [] }

/-- Fixture for the C7 witness: a click request. -/
def reqC7 : Request := { name := "browser_click", args := JVal.null }

/-- Fixture for the C8 counterexample: one active modal state. -/
def stC8 : SessionState :=
  { page := { gen := 0, nodes := [] }, tabSnapshot := none,
    modal := [{ type := "dialog", description := "confirm dialog" }], log := [] }

/-- Fixture for the C8 amended witness: empty modal set. -/
def stC8w : SessionState :=
  { page := { gen := 0, nodes := [] }, tabSnapshot := none, modal := [], log := [] }

/-- Fixture for the C9 witness: a page and snapshot at generation 1. -/
def stC9 : SessionState :=
  { page := { gen := 1, nodes := ["a"] },
    tabSnapshot := some { gen := 1, nodes := ["a"] },
    modal := [], log := [] }

/-- Fixture for the C10 witness: a page at generation 5. -/
def stC10 : SessionState :=
  { page := { gen := 5, nodes := ["a"] }, tabSnapshot := none, modal := [], log := [] }

theorem digitChar_isDigit (d : Nat) (h : d < 10) : (digitChar d).isDigit = true := by
  interval_cases d <;> decide

theorem digitChar_toNat (d : Nat) (h : d < 10) : (digitChar d).toNat = 48 + d := by
  interval_cases d <;> decide

theorem ntdAux_digits : ∀ fuel n, n < fuel → ∀ c ∈ natToDigitsAux fuel n, c.isDigit = true := by
  intro fuel
  induction fuel with
  | zero => intro n h; omega
  | succ f ih =>
    intro n h c hc
    unfold natToDigitsAux at hc
    by_cases h10 : n < 10
    · simp only [h10, if_true, List.mem_singleton] at hc
      subst hc
      exact digitChar_isDigit n h10
    · simp only [h10, if_false, List.mem_append, List.mem_singleton] at hc
      rcases hc with hc | hc
      · have hdiv : n / 10 < f := by
          have h1 : n / 10 < n := Nat.div_lt_self (by omega) (by omega)
          omega
        exact ih (n / 10) hdiv c hc
      · subst hc
        exact digitChar_isDigit (n % 10) (by omega)

theorem ntdAux_ne_nil : ∀ fuel n, n < fuel → natToDigitsAux fuel n ≠ [] := by
  intro fuel
  induction fuel with
  | zero => intro n h; omega
  | succ f _ =>
    intro n _ hnil
    unfold natToDigitsAux at hnil
    by_cases h10 : n < 10
    · simp [h10] at hnil
    · simp [h10] at hnil

theorem ntdAux_foldl : ∀ fuel n, n < fuel → ∀ a : Nat,
    (natToDigitsAux fuel n).foldl (fun acc c => 10 * acc + (c.toNat - 48)) a
      = a * 10 ^ (natToDigitsAux fuel n).length + n := by
  intro fuel
  induction fuel with
  | zero => intro n h; omega
  | succ f ih =>
    intro n h a
    unfold natToDigitsAux
    by_cases h10 : n < 10
    · simp only [h10, if_true, List.foldl_cons, List.foldl_nil, List.length_singleton,
        digitChar_toNat n h10, pow_one]
      omega
    · have hdiv : n / 10 < f := by
        have h1 : n / 10 < n := Nat.div_lt_self (by omega) (by omega)
        omega
      simp only [h10, if_false, List.foldl_append, List.foldl_cons, List.foldl_nil,
        List.length_append, List.length_singleton]
      rw [ih (n / 10) hdiv a]
      rw [digitChar_toNat (n % 10) (by omega)]
      have hmod : 48 + n % 10 - 48 = n % 10 := by omega
      rw [hmod]
      rw [pow_succ]
      have hdm := Nat.div_add_mod n 10
      ring_nf
      omega

theorem natToDigits_digits (n : Nat) : ∀ c ∈ natToDigits n, c.isDigit = true :=
  ntdAux_digits (n + 1) n (by omega)

theorem natToDigits_ne_nil (n : Nat) : natToDigits n ≠ [] :=
  ntdAux_ne_nil (n + 1) n (by omega)

theorem parseDigits_natToDigits (n : Nat) : parseDigits (natToDigits n) = n := by
  unfold parseDigits natToDigits
  rw [ntdAux_foldl (n + 1) n (by omega) 0]
  simp

theorem natToDigits_inj {a b : Nat} (h : natToDigits a = natToDigits b) : a = b := by
  have h2 := congrArg parseDigits h
  rwa [parseDigits_natToDigits, parseDigits_natToDigits] at h2

theorem takeWhile_digits_append (l : List Char) (x : Char) (r : List Char)
    (hl : ∀ c ∈ l, Char.isDigit c = true) (hx : Char.isDigit x = false) :
    (l ++ x :: r).takeWhile Char.isDigit = l := by
  induction l with
  | nil => simp [List.takeWhile_cons, hx]
  | cons c t ih =>
    have hc := hl c (by simp)
    simp only [List.cons_append, List.takeWhile_cons, hc, if_true]
    rw [ih (fun d hd => hl d (by simp [hd]))]

theorem matchSGEAt_refHead (g : Nat) (rest : List Char) :
    matchSGEAt ('s' :: (natToDigits g ++ 'e' :: rest)) = some (natToDigits g) := by
  unfold matchSGEAt
  have h1 : (natToDigits g ++ 'e' :: rest).takeWhile Char.isDigit = natToDigits g :=
    takeWhile_digits_append _ _ _ (natToDigits_digits g) (by decide)
  simp only [h1]
  have h2 : (natToDigits g).isEmpty = false := by
    cases hh : natToDigits g with
    | nil => exact absurd hh (natToDigits_ne_nil g)
    | cons a t => rfl
  simp only [h2, Bool.false_eq_true, if_false]
  rw [List.drop_left]
  rfl

theorem matchSGE_refStr (g i : Nat) : matchSGE (refStr g i) = some (natToDigits g) := by
  show matchSGE ('s' :: (natToDigits g ++ 'e' :: natToDigits i)) = some (natToDigits g)
  unfold matchSGE
  rw [matchSGEAt_refHead]

theorem sPre_isPrefixOf_refStr (g i : Nat) : (sPre g).isPrefixOf (refStr g i) = true := by
  have h : sPre g <+: refStr g i := ⟨natToDigits i, by simp [sPre, refStr]⟩
  exact List.isPrefixOf_iff_prefix.mpr h

theorem matchSGE_of_sPre_starts (g : Nat) (ref : List Char)
    (h : (sPre g).isPrefixOf ref = true) : matchSGE ref ≠ none := by
  obtain ⟨t, ht⟩ := List.isPrefixOf_iff_prefix.mp h
  have h2 : ref = 's' :: (natToDigits g ++ 'e' :: t) := by
    rw [← ht]; simp [sPre]
  rw [h2]
  unfold matchSGE
  rw [matchSGEAt_refHead]
  simp

theorem handleStaleRef_refStr (st : SessionState) (g i : Nat) :
    handleStaleRef st (refStr g i) =
      ((searchRefInText (Snapshot.text (captureForPage st).1) (sPre (g + 1))).getD (refStr g i),
       (captureForPage st).2) := by
  unfold handleStaleRef
  rw [matchSGE_refStr]
  simp only [Option.getD_some, parseDigits_natToDigits, sPre_isPrefixOf_refStr, if_true]
  cases h : searchRefInText (Snapshot.text (captureForPage st).1) (sPre (g + 1)) <;>
    simp [h]

theorem handleStaleRef_state (st : SessionState) (ref : List Char) :
    (handleStaleRef st ref).2 = (captureForPage st).2 := by
  unfold handleStaleRef
  dsimp only
  split
  · split <;> rfl
  · rfl

theorem refLocator_refStr_stale (snap : Snapshot) (g i : Nat) (h : g ≠ snap.gen) :
    ∃ msg, refLocator snap (refStr g i) = Except.error msg := by
  unfold refLocator
  have hfind : (List.range snap.nodes.length).find?
      (fun j => refStr snap.gen j == refStr g i) = none := by
    rw [List.find?_eq_none]
    intro j _
    simp only [beq_iff_eq]
    intro heq
    apply h
    have h2 := congrArg matchSGE heq
    rw [matchSGE_refStr, matchSGE_refStr] at h2
    exact (natToDigits_inj (Option.some.inj h2)).symm
  rw [hfind]
  exact ⟨_, rfl⟩

theorem snapshot_handle_state (st : SessionState) (args : JVal) :
    (snapshot.handle st args).2 = st := rfl

theorem hover_handle_state (st : SessionState) (args : JVal) :
    (hover.handle st args).2 = st := by
  unfold hover
  dsimp only
  rcases h1 : elementSchemaParse args with e | ⟨el, rf⟩ <;> simp only [h1]
  rcases h2 : snapshotOrDie st with e | snap <;> simp only [h2]
  rcases h3 : refLocator snap rf.data with e | node <;> simp only [h3]

theorem drag_handle_state (st : SessionState) (args : JVal) :
    (drag.handle st args).2 = st := by
  unfold drag
  dsimp only
  rcases h1 : dragSchemaParse args with e | ⟨a, b, c, d⟩ <;> simp only [h1]
  rcases h2 : snapshotOrDie st with e | snap <;> simp only [h2]
  rcases h3 : refLocator snap b.data with e | n1 <;> simp only [h3]
  rcases h4 : refLocator snap d.data with e | n2 <;> simp only [h4]

theorem typeTool_handle_state (st : SessionState) (args : JVal) :
    (typeTool.handle st args).2 = st := by
  unfold typeTool
  dsimp only
  rcases h1 : typeSchemaParse args with e | ⟨el, rf, tx, sub, slo⟩ <;> simp only [h1]
  rcases h2 : snapshotOrDie st with e | snap <;> simp only [h2]
  rcases h3 : refLocator snap rf.data with e | node <;> simp only [h3]

theorem selectOption_handle_state (st : SessionState) (args : JVal) :
    (selectOption.handle st args).2 = st := by
  unfold selectOption
  dsimp only
  rcases h1 : selectOptionSchemaParse args with e | ⟨el, rf, vs⟩ <;> simp only [h1]
  rcases h2 : snapshotOrDie st with e | snap <;> simp only [h2]
  rcases h3 : refLocator snap rf.data with e | node <;> simp only [h3]

theorem selectRadio_handle_state (st : SessionState) (args : JVal) :
    (selectRadio.handle st args).2 = st := by
  unfold selectRadio
  dsimp only
  rcases h1 : selectRadioSchemaParse args with e | ⟨el, rf, v⟩ <;> simp only [h1]
  rcases h2 : snapshotOrDie st with e | snap <;> simp only [h2]
  rcases h3 : refLocator snap rf.data with e | node <;> simp only [h3]

theorem screenshot_handle_state (st : SessionState) (args : JVal) :
    (screenshot.handle st args).2 = st := by
  unfold screenshot
  dsimp only
  rcases h1 : screenshotSchemaParse args with e | ⟨raw, el, rf⟩ <;> simp only [h1]
  rcases h2 : snapshotOrDie st with e | snap <;> simp only [h2]
  cases rf with
  | none => rfl
  | some r => rcases h3 : refLocator snap r.data with e | node <;> simp only [h3]

theorem click_handle_state_err (st : SessionState) (args : JVal) (e : String)
    (h : elementSchemaParse args = Except.error e) :
    (click.handle st args).2 = st := by
  unfold click
  dsimp only
  simp only [h]

theorem click_handle_state_ok (st : SessionState) (args : JVal) (el rf : String)
    (h : elementSchemaParse args = Except.ok (el, rf)) :
    (click.handle st args).2 = (handleStaleRef st rf.data).2 := by
  unfold click
  dsimp only
  simp only [h]
  rcases h2 : snapshotOrDie (handleStaleRef st rf.data).2 with e | snap <;> simp only [h2]
  rcases h3 : refLocator snap (handleStaleRef st rf.data).1 with e | node <;> simp only [h3]

/-- C1: for every incoming tool call, the modal-state gate admits a tool
declaring `clearsModalState = T` iff `T` is among the active modal-state
types, and admits a tool with no declaration iff the active modal-state set
is empty; every other combination is rejected with an error response, before
the tool's handler runs (the session state is returned untouched), and on
admission the call proceeds to `runTool`. -/
theorem c1_modal_gate (tool : Tool) (st : SessionState) (req : Request) :
    ((match tool.clearsModalState with
      | some t => t ∈ st.modal.map ModalState.type
      | none => st.modal.map ModalState.type = []) ↔
      gateRejects tool.clearsModalState (st.modal.map ModalState.type) = false)
    ∧ (gateRejects tool.clearsModalState (st.modal.map ModalState.type) = true →
        ∃ msg, handleToolExecution tool st req = (createErrorResponse msg, st))
    ∧ (gateRejects tool.clearsModalState (st.modal.map ModalState.type) = false →
        handleToolExecution tool st req =
          (match runTool tool st req.args with
           | (Except.ok r, st1) => (r, st1)
           | (Except.error e, st1) => (createErrorResponse e, st1))) := by
  refine ⟨?_, ?_, ?_⟩
  · cases hc : tool.clearsModalState with
    | some t =>
      simp [gateRejects, List.contains, List.elem_iff]
    | none =>
      simp [gateRejects, List.isEmpty_iff]
  · intro h
    unfold handleToolExecution
    simp only [h, if_true]
    exact ⟨_, rfl⟩
  · intro h
    unfold handleToolExecution
    simp only [h]
    simp

theorem c1_modal_gate_witness :
    ∃ msg, handleToolExecution click stC1 { name := "browser_click", args := JVal.null } =
      (createErrorResponse msg, stC1) :=
  (c1_modal_gate click stC1 { name := "browser_click", args := JVal.null }).2.1 (by decide)

/-- C2: a stale reference `s<g>e<i>` (generation differing from the current
Snapshot's) makes `handleStaleRef` (1) recapture, advancing the page
generation by one and logging the capture, and (3) return the first match of
the expected prefix (2) `s<g+1>e` followed by digits in the new snapshot's
serialized text when one exists, the original reference otherwise. -/
theorem c2_stale_repair (st : SessionState) (g i : Nat) (_hstale : g ≠ st.page.gen) :
    ((handleStaleRef st (refStr g i)).2.page.gen = st.page.gen + 1)
    ∧ ((handleStaleRef st (refStr g i)).2.log = st.log ++ [Effect.capture (st.page.gen + 1)])
    ∧ ((handleStaleRef st (refStr g i)).1 =
        (searchRefInText (Snapshot.text { gen := st.page.gen + 1, nodes := st.page.nodes })
          (sPre (g + 1))).getD (refStr g i)) := by
  rw [handleStaleRef_refStr]
  exact ⟨rfl, rfl, rfl⟩

theorem c2_stale_repair_witness :
    ((handleStaleRef stC2 (refStr 2 12)).2.page.gen = stC2.page.gen + 1)
    ∧ ((handleStaleRef stC2 (refStr 2 12)).2.log = stC2.log ++ [Effect.capture (stC2.page.gen + 1)])
    ∧ ((handleStaleRef stC2 (refStr 2 12)).1 =
        (searchRefInText (Snapshot.text { gen := stC2.page.gen + 1, nodes := stC2.page.nodes })
          (sPre (2 + 1))).getD (refStr 2 12)) :=
  c2_stale_repair stC2 2 12 (by decide)

/-- C5: when the stale-repair search finds no reference with the expected
next-generation prefix in the new snapshot text, `handleStaleRef` returns
the original reference verbatim; resolving that still-stale reference against
a snapshot of a different generation then fails with an explicit
`StaleOrUnknownReferenceError` instead of acting on an arbitrary element. -/
theorem c5_no_match_returns_original (st : SessionState) (g i : Nat)
    (hno : searchRefInText (Snapshot.text { gen := st.page.gen + 1, nodes := st.page.nodes })
      (sPre (g + 1)) = none) :
    ((handleStaleRef st (refStr g i)).1 = refStr g i)
    ∧ (∀ snap : Snapshot, g ≠ snap.gen →
        ∃ msg, refLocator snap (refStr g i) = Except.error msg) := by
  constructor
  · rw [handleStaleRef_refStr]
    have h2 : searchRefInText (Snapshot.text (captureForPage st).1) (sPre (g + 1)) = none := hno
    rw [h2]
    rfl
  · intro snap hg
    exact refLocator_refStr_stale snap g i hg

theorem c5_no_match_returns_original_witness :
    ((handleStaleRef stC5 (refStr 1 5)).1 = refStr 1 5)
    ∧ (∃ msg, refLocator { gen := 3, nodes := ["a"] } (refStr 1 5) = Except.error msg) :=
  ⟨(c5_no_match_returns_original stC5 1 5 (by decide)).1,
   (c5_no_match_returns_original stC5 1 5 (by decide)).2 { gen := 3, nodes := ["a"] } (by decide)⟩

/-- C10: every call to `handleStaleRef` captures a fresh snapshot, advancing
the page generation by one and logging the capture, regardless of the
supplied reference; and a reference containing no substring of the form
`s<digits>e` (the leftmost-match scan `matchSGE` finds nothing) is returned
unchanged after that recapture. -/
theorem c10_unconditional_recapture (st : SessionState) (ref : List Char) :
    ((handleStaleRef st ref).2.page.gen = st.page.gen + 1)
    ∧ ((handleStaleRef st ref).2.log = st.log ++ [Effect.capture (st.page.gen + 1)])
    ∧ (matchSGE ref = none → (handleStaleRef st ref).1 = ref) := by
  refine ⟨by rw [handleStaleRef_state]; rfl, by rw [handleStaleRef_state]; rfl, ?_⟩
  intro hnone
  have hzero : parseDigits ['0'] = 0 := by decide
  have hp : (sPre 0).isPrefixOf ref = false := by
    cases hb : (sPre 0).isPrefixOf ref with
    | false => rfl
    | true => exact absurd hnone (matchSGE_of_sPre_starts 0 ref hb)
  unfold handleStaleRef
  dsimp only
  rw [hnone]
  simp only [Option.getD_none, hzero, hp]
  simp

theorem c10_unconditional_recapture_witness :
    ((handleStaleRef stC10 ("hello".data)).2.page.gen = stC10.page.gen + 1)
    ∧ ((handleStaleRef stC10 ("hello".data)).1 = "hello".data) :=
  ⟨(c10_unconditional_recapture stC10 ("hello".data)).1,
   (c10_unconditional_recapture stC10 ("hello".data)).2.2 (by decide)⟩

/-- C3: evaluation of the code at the failing input.  The claim (and spec
scenario 4) require the current-generation reference `s3e12` to resolve
directly to node 12, with no recapture and no substitution.  The code
instead runs it through `handleStaleRef`, which always recaptures (the page
generation becomes 4) and — because the guard tests only that the reference
starts with `s<g>e`, not that it is stale — rewrites it to the first
next-generation reference `s4e0`, so the click fails with a stale-reference
error even though node 12 carries exactly the supplied reference. -/
theorem c3_fresh_ref_misrouted :
    ((handleStaleRef stC3 (refStr 3 12)).1 = refStr 4 0)
    ∧ ((handleStaleRef stC3 (refStr 3 12)).2.page.gen = 4)
    ∧ (refLocator { gen := 3, nodes := nodes13 } (refStr 3 12) = Except.ok "n12")
    ∧ ((click.handle stC3 (JVal.obj [("element", JVal.str "x"), ("ref", JVal.str "s3e12")])).1 =
        Except.error ("StaleOrUnknownReferenceError: " ++ String.mk (refStr 4 0))) := by
  refine ⟨by decide, by decide, by rfl, ?_⟩
  rfl

/-- C4 counterexample: the claim says the stale-reference resolver is applied
for every reference-carrying tool.  `hover` (likewise drag, type,
selectOption, selectRadio, screenshot) does not apply it: its planning
leaves the session state untouched and fails on the stale reference
directly, whereas the resolver always recaptures, advancing the
generation. -/
theorem c4_hover_resolver_not_applied :
    ((hover.handle stC4 argsC4).2 = stC4)
    ∧ ((handleStaleRef stC4 (refStr 2 0)).2.page.gen = stC4.page.gen + 1)
    ∧ ((hover.handle stC4 argsC4).1 =
        Except.error ("StaleOrUnknownReferenceError: " ++ String.mk (refStr 2 0))) := by
  refine ⟨by decide, by decide, ?_⟩
  rfl

/-- C4 (amended): only the `click` tool applies the stale-reference resolver
before resolving the supplied reference; `drag`, `hover`, `type`,
`selectOption`, `selectRadio` and `screenshot` resolve the supplied
reference directly against the current Snapshot — their planning never
mutates the session state, while `click`'s planning state is exactly the
resolver's output state. -/
theorem c4_only_click_applies_resolver (st : SessionState) (args : JVal) :
    ((drag.handle st args).2 = st)
    ∧ ((hover.handle st args).2 = st)
    ∧ ((typeTool.handle st args).2 = st)
    ∧ ((selectOption.handle st args).2 = st)
    ∧ ((selectRadio.handle st args).2 = st)
    ∧ ((screenshot.handle st args).2 = st)
    ∧ (∀ el rf, elementSchemaParse args = Except.ok (el, rf) →
        (click.handle st args).2 = (handleStaleRef st rf.data).2) :=
  ⟨drag_handle_state st args, hover_handle_state st args, typeTool_handle_state st args,
   selectOption_handle_state st args, selectRadio_handle_state st args,
   screenshot_handle_state st args, fun el rf h => click_handle_state_ok st args el rf h⟩

theorem c4_only_click_applies_resolver_witness :
    ((hover.handle stC4 argsC4).2 = stC4)
    ∧ ((click.handle stC4 argsC4).2 = (handleStaleRef stC4 ("s2e0".data)).2) :=
  ⟨(c4_only_click_applies_resolver stC4 argsC4).2.1,
   (c4_only_click_applies_resolver stC4 argsC4).2.2.2.2.2.2 "x" "s2e0" rfl⟩

/-- C6: every failure of the tool-call pipeline is answered through the
normal response channel as `content = [text message]`, `isError = true`: an
unknown tool name yields the not-found response with the state untouched; a
gate rejection yields an error response with the state untouched; and every
error escaping `runTool` — schema validation, planning, or the deferred
action, all of which surface as `Except.error` there — is caught and
converted by the dispatcher.  `callToolHandler` is a total function, so no
failure propagates past it. -/
theorem c6_failures_become_error_responses (toolList : List Tool) (st : SessionState)
    (req : Request) :
    (toolList.find? (fun t => t.name == req.name) = none →
      callToolHandler toolList st req =
        ({ content := [ContentItem.text ("Tool \"" ++ req.name ++ "\" not found")],
           isError := true }, st))
    ∧ (∀ tool, toolList.find? (fun t => t.name == req.name) = some tool →
        (gateRejects tool.clearsModalState (st.modal.map ModalState.type) = true →
          ∃ msg, callToolHandler toolList st req =
            ({ content := [ContentItem.text msg], isError := true }, st))
        ∧ (∀ e st1, gateRejects tool.clearsModalState (st.modal.map ModalState.type) = false →
            runTool tool st req.args = (Except.error e, st1) →
            callToolHandler toolList st req =
              ({ content := [ContentItem.text e], isError := true }, st1))) := by
  constructor
  · intro h
    unfold callToolHandler
    rw [h]
    rfl
  · intro tool hfind
    constructor
    · intro hgate
      unfold callToolHandler
      rw [hfind]
      unfold handleToolExecution
      simp only [hgate, if_true]
      exact ⟨_, rfl⟩
    · intro e st1 hgate hrun
      unfold callToolHandler
      rw [hfind]
      unfold handleToolExecution
      simp only [hgate, Bool.false_eq_true, if_false, hrun]
      rfl

theorem c6_failures_become_error_responses_witness :
    callToolHandler toolsList stC6 { name := "browser_teleport", args := JVal.null } =
      ({ content := [ContentItem.text ("Tool \"" ++ "browser_teleport" ++ "\" not found")],
         isError := true }, stC6) :=
  (c6_failures_become_error_responses toolsList stC6
    { name := "browser_teleport", args := JVal.null }).1 rfl

/-- C7: a modal-state gate rejection answers with the structured error
response whose text names the offending tool and is followed by one
caller-displayable line per active modal state, and the session state is
returned unchanged; every active modal state's line appears in the
enumeration. -/
theorem c7_rejection_names_and_preserves (tool : Tool) (st : SessionState) (req : Request)
    (h : gateRejects tool.clearsModalState (st.modal.map ModalState.type) = true) :
    (handleToolExecution tool st req =
      (createErrorResponse (String.intercalate "\n"
        (("Tool \"" ++ req.name ++ "\" does not handle the modal state.")
          :: modalStatesMarkdown st)), st))
    ∧ (∀ m ∈ st.modal, ("- [" ++ m.type ++ "] " ++ m.description) ∈ modalStatesMarkdown st) := by
  constructor
  · unfold handleToolExecution
    simp only [h, if_true]
  · intro m hm
    exact List.mem_map_of_mem _ hm

theorem c7_rejection_names_and_preserves_witness :
    (handleToolExecution click stC7 reqC7 =
      (createErrorResponse (String.intercalate "\n"
        (("Tool \"" ++ reqC7.name ++ "\" does not handle the modal state.")
          :: modalStatesMarkdown stC7)), stC7))
    ∧ (∀ m ∈ stC7.modal, ("- [" ++ m.type ++ "] " ++ m.description) ∈ modalStatesMarkdown stC7) :=
  c7_rejection_names_and_preserves click stC7 reqC7 (by decide)

/-- C8 counterexample: the claim says a schema-invalid call is rejected for
invalid arguments without the gate being consulted.  In the code the gate
runs first: the empty-object arguments are invalid for `click`'s element
schema, yet the pipeline answers with the gate's modal-state rejection, not
with the validation error. -/
theorem c8_gate_consulted_first :
    (elementSchemaParse (JVal.obj []) =
      Except.error "ZodError: element and ref must be strings")
    ∧ (callToolHandler toolsList stC8 { name := "browser_click", args := JVal.obj [] } =
        (createErrorResponse (String.intercalate "\n"
          (("Tool \"" ++ "browser_click" ++ "\" does not handle the modal state.")
            :: modalStatesMarkdown stC8)), stC8)) :=
  ⟨rfl, rfl⟩

/-- C8 (amended): input validation happens inside the handler, before any
planning work, but after the modal-state gate admits the call: when the
active modal-state set is empty (so the gate admits), a schema-invalid
`click` call produces the validation error as an error value and the session
state — in particular the page, the snapshot and the effect log — is
untouched, so the failure never reaches the browser driver. -/
theorem c8_validation_after_gate (st : SessionState) (args : JVal) (e : String)
    (hmodal : st.modal = [])
    (hparse : elementSchemaParse args = Except.error e) :
    callToolHandler toolsList st { name := "browser_click", args := args } =
      (createErrorResponse e, st) := by
  have hfind : List.find? (fun t => t.name == ("browser_click" : String)) toolsList
      = some click := by rfl
  unfold callToolHandler
  dsimp only
  rw [hfind]
  unfold handleToolExecution
  have hgate : gateRejects click.clearsModalState (st.modal.map ModalState.type) = false := by
    rw [hmodal]
    rfl
  simp only [hgate, Bool.false_eq_true, if_false]
  have hrun : runTool click st args = (Except.error e, st) := by
    unfold runTool
    have hh : click.handle st args = (Except.error e, st) := by
      unfold click
      dsimp only
      simp only [hparse]
    rw [hh]
  rw [hrun]

theorem c8_validation_after_gate_witness :
    callToolHandler toolsList stC8w { name := "browser_click", args := JVal.obj [] } =
      (createErrorResponse "ZodError: element and ref must be strings", stC8w) :=
  c8_validation_after_gate stC8w (JVal.obj []) "ZodError: element and ref must be strings" rfl rfl

/-- C9: for every tool in the registry, planning is side-effect free except
for snapshot captures: the handler returns the complete trace and the
(possibly absent) deferred action unexecuted, and the effect log after
planning extends the previous log by capture effects only — no click, drag,
hover, fill, press, check, select or screenshot effect is performed during
planning, so the trace describes intent even if the deferred operation later
fails. -/
theorem c9_planning_runs_no_action (tool : Tool) (hmem : tool ∈ toolsList)
    (st : SessionState) (args : JVal) :
    ∃ fx, ((tool.handle st args).2).log = st.log ++ fx ∧ ∀ e ∈ fx, isCaptureFx e = true := by
  have hnil : ∀ s : SessionState, s.log = s.log ++ ([] : List Effect) := by
    intro s
    simp
  simp only [toolsList, List.mem_cons, List.not_mem_nil, or_false] at hmem
  rcases hmem with rfl | rfl | rfl | rfl | rfl | rfl | rfl | rfl
  · exact ⟨[], by rw [snapshot_handle_state]; exact hnil st, by simp⟩
  · rcases h : elementSchemaParse args with e | ⟨el, rf⟩
    · exact ⟨[], by rw [click_handle_state_err st args e h]; exact hnil st, by simp⟩
    · refine ⟨[Effect.capture (st.page.gen + 1)], ?_, ?_⟩
      · rw [click_handle_state_ok st args el rf h, handleStaleRef_state]
        rfl
      · intro e he
        simp only [List.mem_singleton] at he
        subst he
        rfl
  · exact ⟨[], by rw [drag_handle_state]; exact hnil st, by simp⟩
  · exact ⟨[], by rw [hover_handle_state]; exact hnil st, by simp⟩
  · exact ⟨[], by rw [typeTool_handle_state]; exact hnil st, by simp⟩
  · exact ⟨[], by rw [selectOption_handle_state]; exact hnil st, by simp⟩
  · exact ⟨[], by rw [selectRadio_handle_state]; exact hnil st, by simp⟩
  · exact ⟨[], by rw [screenshot_handle_state]; exact hnil st, by simp⟩

theorem c9_planning_runs_no_action_witness :
    ∃ fx, ((click.handle stC9
        (JVal.obj [("element", JVal.str "x"), ("ref", JVal.str "s1e0")])).2).log
      = stC9.log ++ fx ∧ ∀ e ∈ fx, isCaptureFx e = true :=
  c9_planning_runs_no_action click (List.Mem.tail _ (List.Mem.head _)) stC9
    (JVal.obj [("element", JVal.str "x"), ("ref", JVal.str "s1e0")])

